import Mathlib

/-!
Verification of the filesystem-device resolution and statistics layer of the
monit monitoring daemon, together with its fail2ban probe protocol check.

The C sources are shallowly embedded: every function below is a direct
translation of the corresponding C function from the repository sources
(src/src/device/sysdep_LINUX.c, sysdep_FREEBSD.c, sysdep_SOLARIS.c,
sysdep_DARWIN.c, sysdep_HPUX.c, src/unnamed/part_000..part_002,
src/src/protocols/fail2ban.c).  System calls and file contents appear as
explicit parameters; unsigned 64-bit arithmetic is modelled on Nat with an
explicit reduction modulo 2^64 where the C code can wrap.

Library helpers from libmonit (Str_isEqual via the IS macro, Str_startsWith,
File_basename, Str_parseInt, Str_replaceChar) and the external
StatisticsAccumulator (Statistics_update / Statistics_reset) are not part of
the repository sources; they are modelled from the specification, which
states that matching is by exact string equality, that File_basename strips
any directory prefix, and that the accumulator supports update(handle,
timestampMillis, rawValue) and reset(handle).
-/

/-- 2^64, the modulus of the C uint64_t arithmetic used by the sources. -/
def U64 : Nat := 18446744073709551616

/-- Modelled from the spec: one StatisticsAccumulator counter handle.  The
spec only requires update(handle, timestampMillis, rawValue) and
reset(handle); we record the last fed (timestamp, rawValue) pair, with none
denoting the reset "no data" state. -/
def Stat : Type := Option (Nat × Rat)

instance : DecidableEq Stat := by unfold Stat; infer_instance

/-- Modelled from the spec: Statistics_update feeds a raw value with a
millisecond timestamp into the accumulator. -/
def Statistics_update (_s : Stat) (t : Nat) (v : Rat) : Stat := some (t, v)

/-- Modelled from the spec: Statistics_reset puts the counter into the
reset "no data" state. -/
def Statistics_reset (_s : Stat) : Stat := none

/-- The read.{time,bytes,operations} (resp. write.*) counter triple of
Info_T's filesystem record. -/
structure IOStat where
  time : Stat
  bytes : Stat
  operations : Stat
deriving DecidableEq

/-- An IOStat whose three counters are all in the reset state. -/
def IOStat.reset : IOStat := ⟨none, none, none⟩

/-- Classification of the activity-collection strategy stored in the
getDiskActivity function pointer of the resolved filesystem object
(sysdep_LINUX.c dispatches on these four functions). -/
inductive ActivityFn
  | nfs
  | cifs
  | block
  | dummy
deriving DecidableEq

/-- The inf->priv.filesystem.object record of the handle-caching platform
backends (sysdep_LINUX.c and relatives): resolved device identity cached
across poll cycles. -/
structure FsObject where
  device : String
  mountpoint : String
  type : String
  key : String
  generation : Nat
  mounted : Bool
  activity : ActivityFn
deriving DecidableEq

/-- The inf->priv.filesystem record (Info_T) that all platform backends
write into: usage fields, flag words, activity counters and the cached
object.  The field flagsPrev models the C field named _flags (the previous
mount-flags word). -/
structure Filesystem where
  f_bsize : Nat
  f_blocks : Nat
  f_blocksfree : Nat
  f_blocksfreetotal : Nat
  f_files : Nat
  f_filesfree : Nat
  flags : Nat
  flagsPrev : Nat
  read : IOStat
  write : IOStat
  runTime : Stat
  waitTime : Stat
  type : String
  deviceType : String
  hasIOStatistics : Bool
  object : FsObject
deriving DecidableEq

/-- A fully zeroed Filesystem record, used as the concrete starting state of
example runs. -/
def baseInf : Filesystem :=
  { f_bsize := 0, f_blocks := 0, f_blocksfree := 0, f_blocksfreetotal := 0
    f_files := 0, f_filesfree := 0, flags := 0, flagsPrev := 0
    read := IOStat.reset, write := IOStat.reset
    runTime := none, waitTime := none
    type := "", deviceType := "", hasIOStatistics := false
    object := { device := "", mountpoint := "", type := "", key := ""
                generation := 0, mounted := false, activity := .dummy } }

/-- Modelled from the spec: Str_startsWith from libmonit tests whether the
second string is an initial segment of the first. -/
def Str_startsWith (s pfx : String) : Bool := List.isPrefixOf pfx.data s.data

/-- Modelled from the spec: Str_replaceChar from libmonit replaces every
occurrence of one character by another. -/
def Str_replaceChar (s : String) (a b : Char) : String :=
  String.mk (s.data.map (fun c => if c = a then b else c))

/-- Modelled from the spec: File_basename from libmonit strips any
directory prefix, returning the component after the final slash. -/
def File_basename (p : String) : String :=
  String.mk (p.data.foldl (fun acc c => if c = '/' then [] else acc ++ [c]) [])

/-- C isspace over the scanf whitespace set. -/
def isSpaceChar (c : Char) : Bool :=
  c = ' ' || c = '\t' || c = '\n' || c = '\x0b' || c = '\x0c' || c = '\r'

/-- Skip leading whitespace, as a blank or a numeric directive in a scanf
format does. -/
def skipWs (s : List Char) : List Char := s.dropWhile isSpaceChar

/-- Decimal value of a digit run. -/
def digitsVal (ds : List Char) : Nat :=
  ds.foldl (fun a c => a * 10 + (c.toNat - 48)) 0

/-- scanf %llu on a uint64_t: skip whitespace, read a nonempty digit run,
reduce modulo 2^64.  Returns the value and the rest of the input. -/
def scanU64 (s : List Char) : Option (Nat × List Char) :=
  let t := skipWs s
  let ds := t.takeWhile Char.isDigit
  if ds.isEmpty then none else some (digitsVal ds % U64, t.drop ds.length)

/-- scanf %d: skip whitespace, optional sign, nonempty digit run. -/
def scanInt (s : List Char) : Option (Int × List Char) :=
  let t := skipWs s
  match t with
  | '-' :: r =>
      let ds := r.takeWhile Char.isDigit
      if ds.isEmpty then none else some (-(digitsVal ds : Int), r.drop ds.length)
  | _ =>
      let ds := t.takeWhile Char.isDigit
      if ds.isEmpty then none else some ((digitsVal ds : Int), t.drop ds.length)

/-- scanf %N[^x]: a nonempty run of characters other than the excluded one,
of at most the given length (no leading whitespace skip). -/
def scanSet (bound : Nat) (excluded : Char) (s : List Char) :
    Option (List Char × List Char) :=
  let run := s.takeWhile (fun c => c ≠ excluded)
  if run.isEmpty then none
  else
    let got := run.take bound
    some (got, s.drop got.length)

/-- scanf %Ns: skip whitespace, then a nonempty run of non-whitespace
characters of at most the given length. -/
def scanWord (bound : Nat) (s : List Char) : Option (List Char × List Char) :=
  let t := skipWs s
  let run := t.takeWhile (fun c => !isSpaceChar c)
  if run.isEmpty then none
  else
    let got := run.take bound
    some (got, t.drop got.length)

/-- A literal character in a scanf format: match it or fail. -/
def expectChar (c : Char) : List Char → Option (List Char)
  | x :: r => if x = c then some r else none
  | [] => none

/-- Result of a statvfs call: the fields read by the statvfs-based usage
collectors. -/
structure Statvfs where
  f_bsize : Nat
  f_frsize : Nat
  f_blocks : Nat
  f_bfree : Nat
  f_bavail : Nat
  f_files : Nat
  f_ffree : Nat
  f_flag : Nat
deriving DecidableEq

/-- Result of a BSD statfs call: the fields read by the statfs-based usage
collectors (FreeBSD, Darwin). -/
structure Statfs where
  f_bsize : Nat
  f_blocks : Nat
  f_bfree : Nat
  f_bavail : Nat
  f_files : Nat
  f_ffree : Nat
  f_flags : Nat
deriving DecidableEq

/-- Result of the HP-UX statfs call: sysdep_HPUX.c reads no flag field
from it. -/
structure HpStatfs where
  f_bsize : Nat
  f_blocks : Nat
  f_bfree : Nat
  f_bavail : Nat
  f_files : Nat
  f_ffree : Nat
deriving DecidableEq

/-- The staleness test of the cached kernel statistics snapshot, shared by
_getStatistics in sysdep_FREEBSD.c line 163 and the NetBSD variant
(src/unnamed/part_001 line 144): refresh when
now > timestamp + 1000 || now < timestamp - 1000 in uint64_t arithmetic. -/
def staleCheck (now ts : Nat) : Bool :=
  decide ((ts + 1000) % U64 < now) || decide (now < (ts + (U64 - 1000)) % U64)

namespace Linux

/-- _getDiskUsage from sysdep_LINUX.c: res is the statvfs result for the
object's mountpoint (none when the call failed). -/
def _getDiskUsage (res : Option Statvfs) (inf : Filesystem) :
    Bool × Filesystem :=
  match res with
  | none => (false, inf)
  | some u =>
      (true, { inf with
        f_bsize := u.f_frsize
        f_blocks := u.f_blocks
        f_blocksfree := u.f_bavail
        f_blocksfreetotal := u.f_bfree
        f_files := u.f_files
        f_filesfree := u.f_ffree
        flagsPrev := inf.flags
        flags := u.f_flag })

end Linux

namespace NetBSD

/-- _getDiskUsage from the NetBSD variant (src/unnamed/part_001): same
statvfs assignments as the Linux collector. -/
def _getDiskUsage (res : Option Statvfs) (inf : Filesystem) :
    Bool × Filesystem :=
  match res with
  | none => (false, inf)
  | some u =>
      (true, { inf with
        f_bsize := u.f_frsize
        f_blocks := u.f_blocks
        f_blocksfree := u.f_bavail
        f_blocksfreetotal := u.f_bfree
        f_files := u.f_files
        f_filesfree := u.f_ffree
        flagsPrev := inf.flags
        flags := u.f_flag })

end NetBSD

namespace Solaris

/-- _getDiskUsage from sysdep_SOLARIS.c lines 233-249 (textually identical
in src/unnamed/part_000 and in the second unit of sysdep_FREEBSD.c lines
325-341): applies the fragment-vs-block-size scaling factor
size = f_frsize ? f_bsize / f_frsize : 1 to the three block counts. -/
def _getDiskUsage (res : Option Statvfs) (inf : Filesystem) :
    Bool × Filesystem :=
  match res with
  | none => (false, inf)
  | some u =>
      let size := if u.f_frsize ≠ 0 then u.f_bsize / u.f_frsize else 1
      (true, { inf with
        f_bsize := u.f_bsize
        f_blocks := u.f_blocks / size
        f_blocksfree := u.f_bavail / size
        f_blocksfreetotal := u.f_bfree / size
        f_files := u.f_files
        f_filesfree := u.f_ffree
        flagsPrev := inf.flags
        flags := u.f_flag })

end Solaris

namespace FreeBSD

/-- _getDiskUsage from sysdep_FREEBSD.c lines 205-220 (statfs based). -/
def _getDiskUsage (res : Option Statfs) (inf : Filesystem) :
    Bool × Filesystem :=
  match res with
  | none => (false, inf)
  | some u =>
      (true, { inf with
        f_bsize := u.f_bsize
        f_blocks := u.f_blocks
        f_blocksfree := u.f_bavail
        f_blocksfreetotal := u.f_bfree
        f_files := u.f_files
        f_filesfree := u.f_ffree
        flagsPrev := inf.flags
        flags := u.f_flags })

end FreeBSD

namespace Darwin

/-- _getDiskUsage from sysdep_DARWIN.c lines 73-89 (statfs based). -/
def _getDiskUsage (res : Option Statfs) (inf : Filesystem) :
    Bool × Filesystem :=
  match res with
  | none => (false, inf)
  | some u =>
      (true, { inf with
        f_bsize := u.f_bsize
        f_blocks := u.f_blocks
        f_blocksfree := u.f_bavail
        f_blocksfreetotal := u.f_bfree
        f_files := u.f_files
        f_filesfree := u.f_ffree
        flagsPrev := inf.flags
        flags := u.f_flags })

end Darwin

namespace Hpux

/-- _getDiskUsage from sysdep_HPUX.c lines 75-89: emits the six
size/inode fields only; the HP-UX collector reads no flag bits and leaves
both flags and the previous-flags field untouched. -/
def _getDiskUsage (res : Option HpStatfs) (inf : Filesystem) :
    Bool × Filesystem :=
  match res with
  | none => (false, inf)
  | some u =>
      (true, { inf with
        f_bsize := u.f_bsize
        f_blocks := u.f_blocks
        f_blocksfree := u.f_bavail
        f_blocksfreetotal := u.f_bfree
        f_files := u.f_files
        f_filesfree := u.f_ffree })

end Hpux

namespace FreeBSD

/-- A struct bintime from the FreeBSD devstat result: seconds plus a 64-bit
binary fraction. -/
structure Bintime where
  sec : Nat
  frac : Nat
deriving DecidableEq

/-- _bintimeToMilli from sysdep_FREEBSD.c: sec * 1000 plus the top 32
fraction bits scaled to milliseconds, in uint64_t arithmetic. -/
def _bintimeToMilli (t : Bintime) : Nat :=
  (t.sec * 1000 + ((1000 * ((t.frac >>> 32) % 4294967296)) >>> 32)) % U64

/-- One devstat entry of the FreeBSD kernel statistics snapshot: the fields
read by _getDiskActivity. -/
structure Devstat where
  device_name : String
  unit_number : Nat
  bytesRead : Nat
  bytesWrite : Nat
  opsRead : Nat
  opsWrite : Nat
  durRead : Bintime
  durWrite : Bintime
deriving DecidableEq

/-- The static _statistics cache of sysdep_FREEBSD.c: last refresh
timestamp plus the devstat snapshot (snap_time and the device array). -/
structure FBState where
  timestamp : Nat
  snapTime : Rat
  devices : List Devstat
deriving DecidableEq

/-- _getStatistics from sysdep_FREEBSD.c lines 161-171: refresh the
snapshot only when the staleness check fires; q is the devstat_getdevs
result (none when the kernel query fails). -/
def _getStatistics (q : Option (Rat × List Devstat)) (now : Nat)
    (st : FBState) : Bool × FBState :=
  if staleCheck now st.timestamp then
    match q with
    | none => (false, st)
    | some (sn, d) => (true, { timestamp := now, snapTime := sn, devices := d })
  else (true, st)

end FreeBSD

namespace Fail2ban

/-- Outcome of the fail2ban probe: success, IOException or
ProtocolException (src/src/protocols/fail2ban.c). -/
inductive Result
  | ok
  | ioError
  | protocolError
deriving DecidableEq

/-- The fixed 40-byte PING frame sent by check_fail2ban. -/
def ping : List Nat :=
  [0x80, 0x04, 0x95, 0x0b, 0x00, 0x00, 0x00, 0x00,
   0x00, 0x00, 0x00, 0x5d, 0x94, 0x8c, 0x04, 0x70,
   0x69, 0x6e, 0x67, 0x94, 0x61, 0x2e, 0x3c, 0x46,
   0x32, 0x42, 0x5f, 0x45, 0x4e, 0x44, 0x5f, 0x43,
   0x4f, 0x4d, 0x4d, 0x41, 0x4e, 0x44, 0x3e, 0x00]

/-- The fixed 40-byte PONG frame check_fail2ban expects in response. -/
def pong : List Nat :=
  [0x80, 0x04, 0x95, 0x0c, 0x00, 0x00, 0x00, 0x00,
   0x00, 0x00, 0x00, 0x4b, 0x00, 0x8c, 0x04, 0x70,
   0x6f, 0x6e, 0x67, 0x94, 0x86, 0x94, 0x2e, 0x3c,
   0x46, 0x32, 0x42, 0x5f, 0x45, 0x4e, 0x44, 0x5f,
   0x43, 0x4f, 0x4d, 0x4d, 0x41, 0x4e, 0x44, 0x3e]

/-- check_fail2ban from src/src/protocols/fail2ban.c.  writeRv is the
return value of Socket_write for the 40-byte ping; resp is the byte
sequence obtained by Socket_read (its length being the read return value).
A negative write return raises IOException; a read of anything but exactly
sizeof(pong) = 40 bytes raises IOException; a memcmp mismatch against pong
raises ProtocolException; otherwise the check succeeds. -/
def check_fail2ban (writeRv : Int) (resp : List Nat) : Result :=
  if writeRv < 0 then .ioError
  else if resp.length ≠ pong.length then .ioError
  else if resp ≠ pong then .protocolError
  else .ok

end Fail2ban


/-- The errno values distinguished by the resolver sources. -/
inductive Errno
  | ENOENT
  | ENOTDIR
  | EACCES
  | EIO
deriving DecidableEq

/-- One mount-table entry as returned by getmntent (struct mntent): the
fields read by the Linux-style resolvers. -/
structure MntEnt where
  mnt_fsname : String
  mnt_dir : String
  mnt_type : String
deriving DecidableEq

namespace Linux

/-- The environment of one sysdep_LINUX.c poll cycle: the mount-table
contents (none when setmntent fails), the realpath function, and the
statistics sources consumed by the collectors. -/
structure Env where
  mounts : Option (List MntEnt)
  realpath : String → Except Errno String
  statvfs : String → Option Statvfs
  blockStat : String → Option (List Nat)
  mountstats : Option (List String)
  cifsStats : Option (List String)
  now : Nat

/-- _compareMountpoint from sysdep_LINUX.c: exact mountpoint match,
excluding the rootfs pseudo entry. -/
def _compareMountpoint (mountpoint : String) (mnt : MntEnt) : Bool :=
  mountpoint == mnt.mnt_dir && mnt.mnt_fsname != "rootfs"

/-- _compareDevice from sysdep_LINUX.c: match the device string as is,
falling back to the realpath-canonicalized mount source. -/
def _compareDevice (rp : String → Except Errno String) (device : String)
    (mnt : MntEnt) : Bool :=
  device == mnt.mnt_fsname ||
    (match rp mnt.mnt_fsname with
     | .ok target => device == target
     | .error _ => false)

/-- The per-operation line parser of _getNfsDiskActivity (sysdep_LINUX.c
line 198, identical in sysdep_DARWIN.c line 626): the sscanf format
" %255[^:]: %llu %*u %*u %llu %llu %*u %*u %llu" applied to one
/proc/self/mountstats line, yielding (name, operations, bytesSent,
bytesReceived, time) when all five conversions succeed. -/
def nfsParseLine (line : String) : Option (String × Nat × Nat × Nat × Nat) := do
  let s0 := skipWs line.data
  let (nameCs, s1) ← scanSet 255 ':' s0
  let s2 ← expectChar ':' s1
  let (ops, s3) ← scanU64 s2
  let (_, s4) ← scanU64 s3
  let (_, s5) ← scanU64 s4
  let (sent, s6) ← scanU64 s5
  let (recv, s7) ← scanU64 s6
  let (_, s8) ← scanU64 s7
  let (_, s9) ← scanU64 s8
  let (time, _) ← scanU64 s9
  pure (String.mk nameCs, ops, sent, recv, time)

/-- The READ branch of the NFS collector: feed time in milliseconds (the
double division time / 1000. modelled as the exact rational mkRat time
1000), bytesReceived and operations into the read counters. -/
def nfsUpdateRead (now ops recv time : Nat) (inf : Filesystem) : Filesystem :=
  { inf with read := {
      time := Statistics_update inf.read.time now (mkRat time 1000)
      bytes := Statistics_update inf.read.bytes now (recv : Rat)
      operations := Statistics_update inf.read.operations now (ops : Rat) } }

/-- The WRITE branch of the NFS collector: feed time in milliseconds,
bytesSent and operations into the write counters. -/
def nfsUpdateWrite (now ops sent time : Nat) (inf : Filesystem) : Filesystem :=
  { inf with write := {
      time := Statistics_update inf.write.time now (mkRat time 1000)
      bytes := Statistics_update inf.write.bytes now (sent : Rat)
      operations := Statistics_update inf.write.operations now (ops : Rat) } }

/-- The scanning loop of _getNfsDiskActivity: find the "device <name> "
header, then process tagged per-operation lines, stopping after WRITE. -/
def nfsLoop (pattern : String) (now : Nat) :
    List String → Bool → Filesystem → Filesystem
  | [], _, inf => inf
  | line :: rest, found, inf =>
      if !found && Str_startsWith line pattern then
        nfsLoop pattern now rest true inf
      else if found then
        match nfsParseLine line with
        | some (name, ops, sent, recv, time) =>
            if name == "READ" then
              nfsLoop pattern now rest found (nfsUpdateRead now ops recv time inf)
            else if name == "WRITE" then
              nfsUpdateWrite now ops sent time inf
            else nfsLoop pattern now rest found inf
        | none => nfsLoop pattern now rest found inf
      else nfsLoop pattern now rest found inf

/-- _getNfsDiskActivity from sysdep_LINUX.c lines 177-214: scan
/proc/self/mountstats for the section of the resolved device. -/
def _getNfsDiskActivity (env : Env) (inf : Filesystem) : Bool × Filesystem :=
  match env.mountstats with
  | none => (false, inf)
  | some lines =>
      (true, nfsLoop ("device " ++ inf.object.device ++ " ") env.now lines false inf)

/-- The share-header parser of _getCifsDiskActivity: sscanf
"%d) %1023s" on one /proc/fs/cifs/Stats line, yielding the share name. -/
def cifsParseHead (line : String) : Option String := do
  let (_, s1) ← scanInt line.data
  let s2 ← expectChar ')' s1
  let (nameCs, _) ← scanWord 1023 s2
  pure (String.mk nameCs)

/-- The counter-line parser of _getCifsDiskActivity: sscanf
"%255[^:]: %llu %255[^:]: %llu" yielding (label1, operations, label2,
bytes). -/
def cifsParseCounts (line : String) : Option (String × Nat × String × Nat) := do
  let (l1, s1) ← scanSet 255 ':' line.data
  let s2 ← expectChar ':' s1
  let (ops, s3) ← scanU64 s2
  let (l2, s4) ← scanSet 255 ':' (skipWs s3)
  let s5 ← expectChar ':' s4
  let (bytes, _) ← scanU64 s5
  pure (String.mk l1, ops, String.mk l2, bytes)

/-- The Reads branch of the CIFS collector. -/
def cifsUpdateRead (now ops bytes : Nat) (inf : Filesystem) : Filesystem :=
  { inf with read := {
      time := inf.read.time
      bytes := Statistics_update inf.read.bytes now (bytes : Rat)
      operations := Statistics_update inf.read.operations now (ops : Rat) } }

/-- The Writes branch of the CIFS collector. -/
def cifsUpdateWrite (now ops bytes : Nat) (inf : Filesystem) : Filesystem :=
  { inf with write := {
      time := inf.write.time
      bytes := Statistics_update inf.write.bytes now (bytes : Rat)
      operations := Statistics_update inf.write.operations now (ops : Rat) } }

/-- The scanning loop of _getCifsDiskActivity: find the numbered share
entry, then parse Reads/Writes counter lines, stopping after Writes. -/
def cifsLoop (key : String) (now : Nat) :
    List String → Bool → Filesystem → Filesystem
  | [], _, inf => inf
  | line :: rest, found, inf =>
      if !found then
        match cifsParseHead line with
        | some name =>
            if name == key then cifsLoop key now rest true inf
            else cifsLoop key now rest false inf
        | none => cifsLoop key now rest false inf
      else
        match cifsParseCounts line with
        | some (l1, ops, l2, bytes) =>
            if l1 == "Reads" && l2 == "Bytes" then
              cifsLoop key now rest true (cifsUpdateRead now ops bytes inf)
            else if l1 == "Writes" && l2 == "Bytes" then
              cifsUpdateWrite now ops bytes inf
            else cifsLoop key now rest true inf
        | none => cifsLoop key now rest true inf

/-- _getCifsDiskActivity from sysdep_LINUX.c lines 138-174. -/
def _getCifsDiskActivity (env : Env) (inf : Filesystem) : Bool × Filesystem :=
  match env.cifsStats with
  | none => (false, inf)
  | some lines => (true, cifsLoop inf.object.key env.now lines false inf)

/-- _getBlockDiskActivity from sysdep_LINUX.c lines 217-243: read the
whitespace-separated numeric fields of /sys/class/block/<key>/stat.  The
fscanf assigns fields 1, 3, 4, 5, 7, 8 (read ops, read sectors, read
ticks, write ops, write sectors, write ticks) and demands all six, so a
file with fewer than eight fields fails; sector counts are converted to
bytes by multiplying with the fixed 512-byte sector size in uint64_t
arithmetic. -/
def _getBlockDiskActivity (env : Env) (inf : Filesystem) : Bool × Filesystem :=
  match env.blockStat inf.object.key with
  | none => (false, inf)
  | some (rops :: _ :: rsec :: rt :: wops :: _ :: wsec :: wt :: _) =>
      (true, { inf with
        read := {
          time := Statistics_update inf.read.time env.now (rt : Rat)
          bytes := Statistics_update inf.read.bytes env.now ((rsec * 512 % U64 : Nat) : Rat)
          operations := Statistics_update inf.read.operations env.now (rops : Rat) }
        write := {
          time := Statistics_update inf.write.time env.now (wt : Rat)
          bytes := Statistics_update inf.write.bytes env.now ((wsec * 512 % U64 : Nat) : Rat)
          operations := Statistics_update inf.write.operations env.now (wops : Rat) } })
  | some _ => (false, inf)

/-- _setDevice from sysdep_LINUX.c lines 258-306: scan the mount table for
the first entry accepted by the compare function, record its identity on
the cached object, pick the activity strategy from the filesystem type
(with realpath-based block-device key derivation, tolerating ENOENT as a
virtual filesystem), and set the mounted flag.  A missing entry or a
non-ENOENT canonicalization error leaves mounted = false and fails.  The
generation field is stamped with the current table generation as soon as
the table is open. -/
def _setDevice (env : Env) (gen : Nat) (inf : Filesystem) (path : String)
    (cmp : String → MntEnt → Bool) : Bool × Filesystem :=
  match env.mounts with
  | none => (false, inf)
  | some l =>
      let inf := { inf with object := { inf.object with generation := gen } }
      match l.find? (fun mnt => cmp path mnt) with
      | none => (false, { inf with object := { inf.object with mounted := false } })
      | some mnt =>
          let inf := { inf with object := { inf.object with
            device := mnt.mnt_fsname
            mountpoint := mnt.mnt_dir
            type := mnt.mnt_type } }
          if Str_startsWith mnt.mnt_type "nfs" then
            (true, { inf with object := { inf.object with
              activity := .nfs, mounted := true } })
          else if mnt.mnt_type == "cifs" then
            (true, { inf with object := { inf.object with
              activity := .cifs
              key := Str_replaceChar mnt.mnt_fsname '/' '\\'
              mounted := true } })
          else
            match env.realpath mnt.mnt_fsname with
            | .ok resolved =>
                (true, { inf with object := { inf.object with
                  activity := .block
                  key := File_basename resolved
                  mounted := true } })
            | .error e =>
                let inf := { inf with object := { inf.object with
                  activity := .dummy } }
                if e != Errno.ENOENT then
                  (false, { inf with object := { inf.object with mounted := false } })
                else
                  (true, { inf with object := { inf.object with mounted := true } })

/-- The dispatch through the getDiskActivity function pointer stored on
the resolved object. -/
def runDiskActivity (env : Env) (inf : Filesystem) : Bool × Filesystem :=
  match inf.object.activity with
  | .nfs => _getNfsDiskActivity env inf
  | .cifs => _getCifsDiskActivity env inf
  | .block => _getBlockDiskActivity env inf
  | .dummy => (true, inf)

/-- The tail of _getDevice: when the cached object is mounted, run the
usage collector and, if it succeeds, the activity collector. -/
def _collect (env : Env) (inf : Filesystem) : Bool × Filesystem :=
  if inf.object.mounted then
    match Linux._getDiskUsage (env.statvfs inf.object.mountpoint) inf with
    | (true, inf2) => runDiskActivity env inf2
    | (false, inf2) => (false, inf2)
  else (false, inf)

/-- The static _statistics record of sysdep_LINUX.c: whether the
/proc/self/mounts notification descriptor is open, and the process-wide
mount-table generation counter. -/
structure DState where
  fdOpen : Bool
  generation : Nat
deriving DecidableEq

/-- _getDevice from sysdep_LINUX.c lines 309-335.  The descriptor is
opened lazily in attended daemon mode (openOk tells whether the open
succeeded); with a descriptor present, a poll that reports the
priority/error edge (pollErr, meaningful when pollOk) bumps the
generation; the cached handle is re-resolved via _setDevice exactly when
its generation differs from the process-wide counter or no descriptor is
available; finally usage and activity collection run on a mounted
handle. -/
def _getDevice (env : Env) (daemonMode onceMode openOk pollOk pollErr : Bool)
    (st : DState) (inf : Filesystem) (path : String)
    (cmp : String → MntEnt → Bool) : Bool × DState × Filesystem :=
  let fdOpen := if st.fdOpen then true else daemonMode && !onceMode && openOk
  let gen := if fdOpen && pollOk && pollErr then st.generation + 1
             else st.generation
  let st2 : DState := { fdOpen := fdOpen, generation := gen }
  let inf1 := if inf.object.generation != gen || !fdOpen
              then (_setDevice env gen inf path cmp).2 else inf
  let r := _collect env inf1
  (r.1, st2, r.2)

/-- Filesystem_getByMountpoint from sysdep_LINUX.c. -/
def Filesystem_getByMountpoint (env : Env)
    (daemonMode onceMode openOk pollOk pollErr : Bool) (st : DState)
    (inf : Filesystem) (path : String) : Bool × DState × Filesystem :=
  _getDevice env daemonMode onceMode openOk pollOk pollErr st inf path
    _compareMountpoint

/-- Filesystem_getByDevice from sysdep_LINUX.c. -/
def Filesystem_getByDevice (env : Env)
    (daemonMode onceMode openOk pollOk pollErr : Bool) (st : DState)
    (inf : Filesystem) (path : String) : Bool × DState × Filesystem :=
  _getDevice env daemonMode onceMode openOk pollOk pollErr st inf path
    (_compareDevice env.realpath)

end Linux


/-- Forward scan for the first decimal digit: returns the digit-free
prefix and the remainder starting at the first digit, or none when no
digit occurs. -/
def firstDigitSplit : List Char → Option (List Char × List Char)
  | [] => none
  | c :: cs =>
      if c.isDigit then some ([], c :: cs)
      else
        match firstDigitSplit cs with
        | some (p, r) => some (c :: p, r)
        | none => none

namespace FreeBSD

/-- One getfsstat entry (struct statfs): the fields read by the FreeBSD
resolver. -/
structure StatfsEnt where
  f_mntfromname : String
  f_mntonname : String
  f_fstypename : String
deriving DecidableEq

/-- The struct Device_T of sysdep_FREEBSD.c: kernel device letter name
plus unit number.  The C field named instance is called inst here. -/
structure FBDevice where
  name : String
  inst : Nat
deriving DecidableEq

/-- _parseDevice from sysdep_FREEBSD.c lines 121-131: split a device path
like /dev/da0p2 at the first digit of its basename into the letter name
(da) and the numeric unit (0, the leading integer parsed by Str_parseInt,
modelled from the spec as the leading decimal run).  No digit in the
basename means failure.  cap models sizeof(device->name) = SPECNAMELEN, a
platform-header constant: the copied name is truncated to cap - 1
characters when the digit position reaches cap. -/
def _parseDevice (cap : Nat) (path : String) : Option FBDevice :=
  let base := (File_basename path).data
  match firstDigitSplit base with
  | none => none
  | some (pre, rest) =>
      some { name := String.mk (base.take (if pre.length < cap then pre.length else cap - 1))
             inst := digitsVal (rest.takeWhile Char.isDigit) }

/-- _getDevice from sysdep_FREEBSD.c lines 134-158: find the mount-table
entry of the mountpoint, record its filesystem type, give up on zfs (not
supported on FreeBSD in this code), and otherwise parse the mount source
device name. -/
def _getDevice (cap : Nat) (table : Option (List StatfsEnt))
    (mountpoint : String) (inf : Filesystem) : Option FBDevice × Filesystem :=
  match table with
  | none => (none, inf)
  | some l =>
      match l.find? (fun sfs => sfs.f_mntonname == mountpoint) with
      | none => (none, inf)
      | some sfs =>
          let inf := { inf with deviceType := sfs.f_fstypename }
          if sfs.f_fstypename == "zfs" then (none, inf)
          else (_parseDevice cap sfs.f_mntfromname, inf)

/-- _getDiskActivity from sysdep_FREEBSD.c lines 174-202: resolve the
device; on success refresh the cached devstat snapshot if stale and feed
the matching device entry into the six counters (timestamped with the
snapshot time in milliseconds); on resolution failure reset all six
read/write counters and report success. -/
def _getDiskActivity (cap : Nat) (table : Option (List StatfsEnt))
    (query : Option (Rat × List Devstat)) (now : Nat) (mountpoint : String)
    (st : FBState) (inf : Filesystem) : Bool × FBState × Filesystem :=
  match _getDevice cap table mountpoint inf with
  | (some dev, inf1) =>
      match _getStatistics query now st with
      | (true, st2) =>
          match st2.devices.find? (fun d =>
              d.unit_number == dev.inst && d.device_name == dev.name) with
          | some d =>
              let snapMs := ((st2.snapTime * 1000).floor).toNat % U64
              (true, st2, { inf1 with
                read := {
                  time := Statistics_update inf1.read.time snapMs
                    ((_bintimeToMilli d.durRead : Nat) : Rat)
                  bytes := Statistics_update inf1.read.bytes snapMs (d.bytesRead : Rat)
                  operations := Statistics_update inf1.read.operations snapMs (d.opsRead : Rat) }
                write := {
                  time := Statistics_update inf1.write.time snapMs
                    ((_bintimeToMilli d.durWrite : Nat) : Rat)
                  bytes := Statistics_update inf1.write.bytes snapMs (d.bytesWrite : Rat)
                  operations := Statistics_update inf1.write.operations snapMs (d.opsWrite : Rat) } })
          | none => (true, st2, inf1)
      | (false, st2) => (false, st2, inf1)
  | (none, inf1) =>
      (true, st, { inf1 with read := IOStat.reset, write := IOStat.reset })

end FreeBSD

namespace NetBSD

/-- _parseDevice from the NetBSD variant (src/unnamed/part_001 lines
104-114, textually repeated in the second unit of sysdep_SOLARIS.c):
scan the basename backwards for the last decimal digit and keep the
prefix up to and including it (/dev/sd0a becomes sd0); no digit means
failure.  cap models the C copy bound (in part_001 the sizeof of an
array-typed parameter, which in C decays to the pointer size). -/
def _parseDevice (cap : Nat) (path : String) : Option String :=
  let base := (File_basename path).data
  match firstDigitSplit base.reverse with
  | none => none
  | some (sufRev, _) =>
      let i := base.length - 1 - sufRev.length
      some (String.mk (base.take (if i + 1 < cap then i + 1 else cap - 1)))

end NetBSD

namespace Solaris

/-- One getextmntent entry (struct extmnttab): the fields read by the
Solaris resolver. -/
structure SolMnt where
  mnt_special : String
  mnt_mountp : String
  mnt_fstype : String
  mnt_minor : Nat
deriving DecidableEq

/-- The struct Device_T of sysdep_SOLARIS.c: kstat module, name, instance
number and partition letter.  The C field named instance is called inst
here. -/
structure SolDevice where
  module : String
  name : String
  inst : Int
  partition : Char
deriving DecidableEq

/-- The zero-initialized device record the caller passes in. -/
def SolDevice.empty : SolDevice := ⟨"", "", 0, '\x00'⟩

/-- One /etc/path_to_inst line parsed with the sscanf format
"%1023[^"] %d "%255[^"]" (quote literals around the first and third
conversions): device tree path, instance number, driver module. -/
def ptiParseLine (line : String) : Option (String × Int × String) := do
  let s1 ← expectChar '"' line.data
  let (pathCs, s2) ← scanSet 1023 '"' s1
  let s3 ← expectChar '"' s2
  let (i, s4) ← scanInt s3
  let s5 ← expectChar '"' (skipWs s4)
  let (modCs, s6) ← scanSet 255 '"' s5
  let _ ← expectChar '"' s6
  pure (String.mk pathCs, i, String.mk modCs)

/-- Result of the Solaris _getDevice: success flag, the (partially)
filled device record, the updated Info_T record, and whether any LogError
call was reached inside the function. -/
structure SolResult where
  rv : Bool
  device : SolDevice
  inf : Filesystem
  errLogged : Bool

/-- _getDevice from sysdep_SOLARIS.c lines 100-168 (likewise
src/unnamed/part_000 lines 87-149 minus the zfs branch): find the mnttab
entry of the mountpoint, then derive the kstat key: nfs minor for NFS,
pool name up to the first slash for zfs, otherwise canonicalize the mount
source (an ENOENT/ENOTDIR failure is silently skipped as a virtual
filesystem, anything else is logged), demand a /devices/ path, strip the
/devices prefix and the :X partition postfix, and cross-reference
/etc/path_to_inst for module and instance; the cmdk common disk driver
uses whole-disk statistics, other drivers append the partition letter. -/
def _getDevice (mnttab : Option (List SolMnt))
    (rp : String → Except Errno String) (pti : Option (List String))
    (mountpoint : String) (device : SolDevice) (inf : Filesystem) : SolResult :=
  match mnttab with
  | none => ⟨false, device, inf, true⟩
  | some l =>
      match l.find? (fun m => m.mnt_mountp == mountpoint) with
      | none => ⟨false, device, inf, false⟩
      | some m =>
          let inf := { inf with type := m.mnt_fstype }
          if Str_startsWith m.mnt_fstype "nfs" then
            ⟨true, { device with
                      module := "nfs"
                      name := "nfs" ++ toString m.mnt_minor
                      inst := (m.mnt_minor : Int) }, inf, false⟩
          else if m.mnt_fstype == "zfs" then
            let name :=
              if m.mnt_special.data.any (fun c => c = '/') then
                String.mk (m.mnt_special.data.takeWhile (fun c => c ≠ '/'))
              else String.mk (m.mnt_special.data.take 255)
            ⟨true, { device with module := "zfs", name := name }, inf, false⟩
          else
            match rp m.mnt_special with
            | .error e =>
                ⟨false, device, inf, decide (e ≠ .ENOENT ∧ e ≠ .ENOTDIR)⟩
            | .ok special =>
                if ! Str_startsWith special "/devices/" then
                  ⟨false, device, inf, true⟩
                else
                  let cs := special.data
                  let device := { device with partition := cs.getLastD ' ' }
                  let stripped := String.mk ((cs.drop 8).take (cs.length - 10))
                  match pti with
                  | none => ⟨false, device, inf, true⟩
                  | some lines =>
                      match lines.findSome? (fun line =>
                          match ptiParseLine line with
                          | some (p, i, md) =>
                              if p == stripped then some (i, md) else none
                          | none => none) with
                      | some (i, md) =>
                          let name :=
                            if md == "cmdk" then md ++ toString i
                            else md ++ toString i ++ "," ++ String.mk [device.partition]
                          ⟨true, { device with module := md, inst := i, name := name },
                            inf, false⟩
                      | none => ⟨false, device, inf, false⟩

end Solaris

/-- A concrete Linux environment: one ext4 filesystem mounted at /. -/
def envW1 : Linux.Env :=
  { mounts := some [⟨"/dev/sda1", "/", "ext4"⟩]
    realpath := fun _ => .ok "/dev/sda1"
    statvfs := fun _ => some ⟨4096, 4096, 100, 50, 40, 10, 5, 1⟩
    blockStat := fun _ => some [1, 0, 8, 1, 1, 0, 8, 1, 0, 0, 0]
    mountstats := none
    cifsStats := none
    now := 5 }

/-- A second concrete Linux environment whose mount table differs (it is
empty), used to observe that a call which does not re-scan cannot see the
new table. -/
def envW2 : Linux.Env := { envW1 with mounts := some [], now := 6 }

/-- A Filesystem record whose six activity counters hold stale data from a
previous cycle. -/
def staleInf : Filesystem :=
  { baseInf with read := ⟨some (5, 1), some (5, 42), some (5, 3)⟩
                 write := ⟨some (5, 2), some (5, 50), some (5, 4)⟩ }

/-- The NFS statistics source of the C3 test vector. -/
def nfsLinesC3 : List String :=
  ["device foo mounted on /mnt with fstype nfs statvers=1.1",
   "READ: 100 0 0 2048 4096 0 0 5000"]

/-- A Linux environment whose /proc/self/mountstats holds the C3 test
vector. -/
def envC3 : Linux.Env := { envW1 with mountstats := some nfsLinesC3, now := 7 }

/-- A Filesystem whose cached object resolved the NFS device foo. -/
def infC3 : Filesystem :=
  { baseInf with object := { baseInf.object with device := "foo" } }

/-- A Linux environment with one ext4 entry whose device node fails
canonicalization with ENOTDIR. -/
def envC4 : Linux.Env :=
  { envW1 with mounts := some [⟨"/dev/foo", "/mnt", "ext4"⟩]
               realpath := fun _ => .error .ENOTDIR }

/-- The same environment with an ENOENT canonicalization failure. -/
def envC4b : Linux.Env := { envC4 with realpath := fun _ => .error .ENOENT }

/-- A Linux environment whose block statistics file reports 2^55 read
sectors (and 10 write sectors) for device sda. -/
def envC7 : Linux.Env :=
  { envW1 with
    blockStat := fun k =>
      if k = "sda" then some [1, 0, 36028797018963968, 2, 3, 0, 10, 4, 0, 0, 0]
      else none
    now := 9 }

/-- The same environment with small sector counts. -/
def envC7w : Linux.Env :=
  { envC7 with
    blockStat := fun k =>
      if k = "sda" then some [1, 0, 8, 1, 1, 0, 10, 1, 0, 0, 0] else none }

/-- A Filesystem whose cached object key is the block device sda. -/
def infC7 : Filesystem :=
  { baseInf with object := { baseInf.object with key := "sda" } }

/-! ## Theorems -/

/-- The usage collector never touches the cached object. -/
theorem usage_object (res : Option Statvfs) (inf : Filesystem) :
    ((Linux._getDiskUsage res inf).2).object = inf.object := by
  cases res <;> simp [Linux._getDiskUsage]

/-- The NFS scanning loop never touches the cached object. -/
theorem nfsLoop_object (p : String) (now : Nat) (lines : List String) :
    ∀ (found : Bool) (inf : Filesystem),
      (Linux.nfsLoop p now lines found inf).object = inf.object := by
  induction lines with
  | nil => intro found inf; simp [Linux.nfsLoop]
  | cons line rest ih =>
      intro found inf
      rw [Linux.nfsLoop]
      split
      · exact ih _ _
      · split
        · split
          · split
            · rw [ih]; simp [Linux.nfsUpdateRead]
            · split
              · simp [Linux.nfsUpdateWrite]
              · exact ih _ _
          · exact ih _ _
        · exact ih _ _

/-- The CIFS scanning loop never touches the cached object. -/
theorem cifsLoop_object (key : String) (now : Nat) (lines : List String) :
    ∀ (found : Bool) (inf : Filesystem),
      (Linux.cifsLoop key now lines found inf).object = inf.object := by
  induction lines with
  | nil => intro found inf; simp [Linux.cifsLoop]
  | cons line rest ih =>
      intro found inf
      rw [Linux.cifsLoop]
      split
      · split
        · split
          · exact ih _ _
          · exact ih _ _
        · exact ih _ _
      · split
        · split
          · rw [ih]; simp [Linux.cifsUpdateRead]
          · split
            · simp [Linux.cifsUpdateWrite]
            · exact ih _ _
        · exact ih _ _

/-- The NFS activity collector never touches the cached object. -/
theorem nfsAct_object (env : Linux.Env) (inf : Filesystem) :
    ((Linux._getNfsDiskActivity env inf).2).object = inf.object := by
  unfold Linux._getNfsDiskActivity
  split
  · rfl
  · exact nfsLoop_object _ _ _ _ _

/-- The CIFS activity collector never touches the cached object. -/
theorem cifsAct_object (env : Linux.Env) (inf : Filesystem) :
    ((Linux._getCifsDiskActivity env inf).2).object = inf.object := by
  unfold Linux._getCifsDiskActivity
  split
  · rfl
  · exact cifsLoop_object _ _ _ _ _

/-- The block activity collector never touches the cached object. -/
theorem blockAct_object (env : Linux.Env) (inf : Filesystem) :
    ((Linux._getBlockDiskActivity env inf).2).object = inf.object := by
  unfold Linux._getBlockDiskActivity
  split <;> simp

/-- The activity dispatch never touches the cached object. -/
theorem runActivity_object (env : Linux.Env) (inf : Filesystem) :
    ((Linux.runDiskActivity env inf).2).object = inf.object := by
  unfold Linux.runDiskActivity
  split
  · exact nfsAct_object env inf
  · exact cifsAct_object env inf
  · exact blockAct_object env inf
  · rfl

/-- The usage-then-activity collection phase of _getDevice never touches
the cached object. -/
theorem collect_object (env : Linux.Env) (inf : Filesystem) :
    ((Linux._collect env inf).2).object = inf.object := by
  unfold Linux._collect
  split
  · split
    · rename_i inf2 heq
      have h2 : inf2.object = inf.object := by
        have h := usage_object (env.statvfs inf.object.mountpoint) inf
        rw [heq] at h
        exact h
      rw [runActivity_object, h2]
    · rename_i inf2 heq
      have h2 : inf2.object = inf.object := by
        have h := usage_object (env.statvfs inf.object.mountpoint) inf
        rw [heq] at h
        exact h
      simpa using h2
  · rfl

/-- Whatever path _setDevice takes with a readable mount table, it stamps
the object with the given generation. -/
theorem setDevice_generation (env : Linux.Env) (gen : Nat) (inf : Filesystem)
    (path : String) (cmp : String → MntEnt → Bool) (l : List MntEnt)
    (hm : env.mounts = some l) :
    ((Linux._setDevice env gen inf path cmp).2).object.generation = gen := by
  simp only [Linux._setDevice, hm]
  split
  · simp
  · split
    · simp
    · split
      · simp
      · split
        · simp
        · split <;> simp

/-- With a descriptor open, a _getDevice call leaves the descriptor open
and sets the process generation to the polled one. -/
theorem getDevice_state_eq (env : Linux.Env) (pollErr : Bool) (g : Nat)
    (inf : Filesystem) (path : String) (cmp : String → MntEnt → Bool) :
    (Linux._getDevice env true false true true pollErr
        ⟨true, g⟩ inf path cmp).2.1
      = ⟨true, if pollErr then g + 1 else g⟩ := by
  cases pollErr <;> simp [Linux._getDevice]

/-- With a descriptor open and a readable mount table, the handle left by
_getDevice carries the post-poll process generation. -/
theorem getDevice_gen_sync (env : Linux.Env) (pollErr : Bool) (g : Nat)
    (inf : Filesystem) (path : String) (cmp : String → MntEnt → Bool)
    (l : List MntEnt) (hm : env.mounts = some l) :
    (Linux._getDevice env true false true true pollErr
        ⟨true, g⟩ inf path cmp).2.2.object.generation
      = (if pollErr then g + 1 else g) := by
  cases pollErr <;>
  · simp only [Linux._getDevice]
    rw [collect_object]
    simp only [Bool.true_and, Bool.and_false, Bool.and_true, Bool.not_true,
      Bool.or_false, if_true, if_false, Bool.false_eq_true, Bool.true_eq_false]
    split
    · exact setDevice_generation env _ inf path cmp l hm
    · rename_i hb
      simp only [bne_iff_ne, ne_eq, not_not] at hb
      simpa using hb

/-- With a descriptor open and a handle already stamped with the current
generation, a _getDevice call without a change notification does not
re-scan: the cached object comes back unchanged. -/
theorem getDevice_nochange (env : Linux.Env) (g : Nat) (inf : Filesystem)
    (path : String) (cmp : String → MntEnt → Bool)
    (hg : inf.object.generation = g) :
    (Linux._getDevice env true false true true false
        ⟨true, g⟩ inf path cmp).2.2.object = inf.object := by
  simp only [Linux._getDevice]
  rw [collect_object]
  simp [hg]

/-- With a descriptor open and a stale handle generation, _getDevice
re-resolves through _setDevice against the current mount table. -/
theorem getDevice_rescan_gen (env : Linux.Env) (g : Nat) (inf : Filesystem)
    (path : String) (cmp : String → MntEnt → Bool)
    (hg : inf.object.generation ≠ g) :
    (Linux._getDevice env true false true true false
        ⟨true, g⟩ inf path cmp).2.2.object
      = (Linux._setDevice env g inf path cmp).2.object := by
  simp only [Linux._getDevice]
  rw [collect_object]
  simp [hg]

/-- With no notification descriptor (and none being opened), every
_getDevice call re-resolves through _setDevice, whatever the handle
generation. -/
theorem getDevice_nofd (env : Linux.Env) (g : Nat) (inf : Filesystem)
    (path : String) (cmp : String → MntEnt → Bool) :
    (Linux._getDevice env false false false true false
        ⟨false, g⟩ inf path cmp).2.2.object
      = (Linux._setDevice env g inf path cmp).2.object := by
  simp only [Linux._getDevice]
  rw [collect_object]
  simp

/-- Claim C5: check_fail2ban writes the fixed 40-byte ping frame; a failed
write raises an I/O error; a read of anything other than exactly 40 bytes
raises an I/O error; 40 bytes read that differ from the expected pong frame
in any single byte raise a protocol error; and a successful write followed
by exactly the 40 pong bytes succeeds with no error. -/
theorem fail2ban_probe_protocol :
    (∀ (w : Int) (resp : List Nat), w < 0 →
      Fail2ban.check_fail2ban w resp = .ioError)
    ∧ (∀ (w : Int) (resp : List Nat), 0 ≤ w → resp.length ≠ 40 →
      Fail2ban.check_fail2ban w resp = .ioError)
    ∧ (∀ (w : Int) (resp : List Nat), 0 ≤ w → resp.length = 40 →
      resp ≠ Fail2ban.pong → Fail2ban.check_fail2ban w resp = .protocolError)
    ∧ (∀ (w : Int) (resp : List Nat) (i : Nat), 0 ≤ w → resp.length = 40 →
      resp.get? i ≠ Fail2ban.pong.get? i →
      Fail2ban.check_fail2ban w resp = .protocolError)
    ∧ (∀ w : Int, 0 ≤ w → Fail2ban.check_fail2ban w Fail2ban.pong = .ok) := by
  have hp : Fail2ban.pong.length = 40 := by decide
  refine ⟨?_, ?_, ?_, ?_, ?_⟩
  · intro w resp hw
    simp [Fail2ban.check_fail2ban, hw]
  · intro w resp hw hlen
    simp [Fail2ban.check_fail2ban, not_lt.mpr hw, hp, hlen]
  · intro w resp hw hlen hne
    simp [Fail2ban.check_fail2ban, not_lt.mpr hw, hp, hlen, hne]
  · intro w resp i hw hlen hne
    have hne' : resp ≠ Fail2ban.pong := by
      intro h
      exact hne (by rw [h])
    simp [Fail2ban.check_fail2ban, not_lt.mpr hw, hp, hlen, hne']
  · intro w hw
    simp [Fail2ban.check_fail2ban, not_lt.mpr hw]

/-- Witness for C5: concrete runs of the probe at the expected pong, at a
pong corrupted in its first byte, at a failed write, and at a short read. -/
theorem fail2ban_probe_protocol_witness :
    Fail2ban.check_fail2ban 40 Fail2ban.pong = .ok
    ∧ Fail2ban.check_fail2ban 40 (0x81 :: Fail2ban.pong.tail) = .protocolError
    ∧ Fail2ban.check_fail2ban (-1) Fail2ban.pong = .ioError
    ∧ Fail2ban.check_fail2ban 40 (Fail2ban.pong.take 10) = .ioError :=
  ⟨fail2ban_probe_protocol.2.2.2.2 40 (by decide),
   fail2ban_probe_protocol.2.2.1 40 (0x81 :: Fail2ban.pong.tail) (by decide)
     (by decide) (by decide),
   fail2ban_probe_protocol.1 (-1) Fail2ban.pong (by decide),
   fail2ban_probe_protocol.2.1 40 (Fail2ban.pong.take 10) (by decide) (by decide)⟩

/-- Claim C6: with f_bsize = 4096 and f_frsize = 1024 the
fragment-normalizing usage collector emits every raw block count divided by
the size factor bsize/frsize = 4 (for f_blocks, f_bavail and f_bfree
alike), and with f_frsize = 0 the size factor is 1, so the raw counts are
emitted unchanged. -/
theorem fragment_normalization :
    (∀ (u : Statvfs) (inf : Filesystem),
      u.f_bsize = 4096 → u.f_frsize = 1024 →
      (Solaris._getDiskUsage (some u) inf).2.f_blocks = u.f_blocks / 4
      ∧ (Solaris._getDiskUsage (some u) inf).2.f_blocksfree = u.f_bavail / 4
      ∧ (Solaris._getDiskUsage (some u) inf).2.f_blocksfreetotal = u.f_bfree / 4)
    ∧ (∀ (u : Statvfs) (inf : Filesystem),
      u.f_frsize = 0 →
      (Solaris._getDiskUsage (some u) inf).2.f_blocks = u.f_blocks
      ∧ (Solaris._getDiskUsage (some u) inf).2.f_blocksfree = u.f_bavail
      ∧ (Solaris._getDiskUsage (some u) inf).2.f_blocksfreetotal = u.f_bfree) := by
  constructor
  · intro u inf hb hf
    simp [Solaris._getDiskUsage, hb, hf]
  · intro u inf hf
    simp [Solaris._getDiskUsage, hf]

/-- Witness for C6: a concrete statvfs result with 4096-byte blocks in
1024-byte fragments, and one with a zero fragment size. -/
theorem fragment_normalization_witness :
    (Solaris._getDiskUsage
      (some ⟨4096, 1024, 100, 60, 40, 9, 5, 3⟩) baseInf).2.f_blocks = 25
    ∧ (Solaris._getDiskUsage
      (some ⟨4096, 0, 100, 60, 40, 9, 5, 3⟩) baseInf).2.f_blocks = 100 := by
  constructor
  · have h := (fragment_normalization.1 ⟨4096, 1024, 100, 60, 40, 9, 5, 3⟩
      baseInf rfl rfl).1
    simpa using h
  · have h := (fragment_normalization.2 ⟨4096, 0, 100, 60, 40, 9, 5, 3⟩
      baseInf rfl).1
    simpa using h

/-- Claim C8: the cached statistics snapshot is refreshed exactly when now
is more than 1000 ms after, or more than 1000 ms before, the cached
timestamp; a backward clock jump beyond the threshold therefore still
refreshes, while inside the plus/minus one second window the cached
snapshot is reused without any kernel query (the result does not depend on
the query argument at all). -/
theorem statistics_refresh_window (now ts : Nat)
    (h1 : 1000 ≤ ts) (h2 : ts + 1000 < U64) (h3 : now < U64) :
    (staleCheck now ts = true ↔ (ts + 1000 < now ∨ now + 1000 < ts))
    ∧ (∀ (st : FreeBSD.FBState) (q : Option (Rat × List FreeBSD.Devstat)),
        st.timestamp = ts → ts - 1000 ≤ now → now ≤ ts + 1000 →
        FreeBSD._getStatistics q now st = (true, st))
    ∧ (∀ (st : FreeBSD.FBState) (sn : Rat) (d : List FreeBSD.Devstat),
        st.timestamp = ts → now + 1000 < ts →
        FreeBSD._getStatistics (some (sn, d)) now st = (true, ⟨now, sn, d⟩)) := by
  have hU : U64 = 18446744073709551616 := rfl
  have m1 : (ts + 1000) % U64 = ts + 1000 := Nat.mod_eq_of_lt h2
  have m2 : (ts + (U64 - 1000)) % U64 = ts - 1000 := by
    have e : ts + (U64 - 1000) = (ts - 1000) + U64 := by omega
    rw [e, Nat.add_mod_right]
    exact Nat.mod_eq_of_lt (by omega)
  have hiff : staleCheck now ts = true ↔ (ts + 1000 < now ∨ now + 1000 < ts) := by
    simp only [staleCheck, Bool.or_eq_true, decide_eq_true_eq, m1, m2]
    omega
  refine ⟨hiff, ?_, ?_⟩
  · intro st q hst hlo hhi
    have hfalse : staleCheck now ts = false := by
      cases h : staleCheck now ts with
      | false => rfl
      | true => exact absurd (hiff.mp h) (by omega)
    cases st with
    | mk sts ssn sds =>
        cases hst
        simp [FreeBSD._getStatistics, hfalse]
  · intro st sn d hst hback
    have htrue : staleCheck now ts = true := hiff.mpr (Or.inr hback)
    cases st with
    | mk sts ssn sds =>
        cases hst
        simp [FreeBSD._getStatistics, htrue]

/-- Witness for C8: a backward jump of two seconds (now = 3000 against a
cached timestamp of 5000) refreshes, while now = 5500 inside the window
reuses the cached snapshot even when the kernel query would fail. -/
theorem statistics_refresh_window_witness :
    staleCheck 3000 5000 = true
    ∧ FreeBSD._getStatistics none 5500 ⟨5000, 0, []⟩ = (true, ⟨5000, 0, []⟩)
    ∧ FreeBSD._getStatistics (some (2, [])) 3000 ⟨5000, 0, []⟩
      = (true, ⟨3000, 2, []⟩) :=
  ⟨(statistics_refresh_window 3000 5000 (by decide) (by decide)
      (by decide)).1.mpr (Or.inr (by decide)),
   (statistics_refresh_window 5500 5000 (by decide) (by decide)
      (by decide)).2.1 ⟨5000, 0, []⟩ none rfl (by decide) (by decide),
   (statistics_refresh_window 3000 5000 (by decide) (by decide)
      (by decide)).2.2 ⟨5000, 0, []⟩ 2 [] rfl (by decide)⟩

/-- Counterexample to C9: the HP-UX usage collector (sysdep_HPUX.c lines
75-89) does not copy the current flags into the previous-flags field — on
a state with flags = 5 and previous flags = 7, a successful collection
leaves the previous-flags field at 7 instead of shifting in 5. -/
theorem hpux_usage_no_flags_shift :
    ¬ ((Hpux._getDiskUsage (some ⟨1024, 100, 50, 40, 10, 5⟩)
          { baseInf with flags := 5, flagsPrev := 7 }).2.flagsPrev
        = ({ baseInf with flags := 5, flagsPrev := 7 } : Filesystem).flags) := by
  decide

/-- Claim C9 (amended): on every platform except HP-UX, a successful usage
collection first copies the current flags value into the previous-flags
field and then overwrites flags with the fresh statvfs/statfs flag bits,
touching no field outside the seven emitted usage fields plus
previous-flags; the HP-UX collector emits only the six size/inode fields
and leaves both flag fields (and everything else) unchanged. -/
theorem usage_flags_shift_by_platform :
    (∀ (u : Statvfs) (inf : Filesystem),
      (Linux._getDiskUsage (some u) inf).2.flagsPrev = inf.flags
      ∧ (Linux._getDiskUsage (some u) inf).2.flags = u.f_flag
      ∧ (Linux._getDiskUsage (some u) inf).2.read = inf.read
      ∧ (Linux._getDiskUsage (some u) inf).2.write = inf.write
      ∧ (Linux._getDiskUsage (some u) inf).2.runTime = inf.runTime
      ∧ (Linux._getDiskUsage (some u) inf).2.waitTime = inf.waitTime
      ∧ (Linux._getDiskUsage (some u) inf).2.object = inf.object)
    ∧ (∀ (u : Statvfs) (inf : Filesystem),
      (NetBSD._getDiskUsage (some u) inf).2.flagsPrev = inf.flags
      ∧ (NetBSD._getDiskUsage (some u) inf).2.flags = u.f_flag
      ∧ (NetBSD._getDiskUsage (some u) inf).2.read = inf.read
      ∧ (NetBSD._getDiskUsage (some u) inf).2.write = inf.write
      ∧ (NetBSD._getDiskUsage (some u) inf).2.object = inf.object)
    ∧ (∀ (u : Statvfs) (inf : Filesystem),
      (Solaris._getDiskUsage (some u) inf).2.flagsPrev = inf.flags
      ∧ (Solaris._getDiskUsage (some u) inf).2.flags = u.f_flag
      ∧ (Solaris._getDiskUsage (some u) inf).2.read = inf.read
      ∧ (Solaris._getDiskUsage (some u) inf).2.write = inf.write
      ∧ (Solaris._getDiskUsage (some u) inf).2.object = inf.object)
    ∧ (∀ (u : Statfs) (inf : Filesystem),
      (FreeBSD._getDiskUsage (some u) inf).2.flagsPrev = inf.flags
      ∧ (FreeBSD._getDiskUsage (some u) inf).2.flags = u.f_flags
      ∧ (FreeBSD._getDiskUsage (some u) inf).2.read = inf.read
      ∧ (FreeBSD._getDiskUsage (some u) inf).2.write = inf.write
      ∧ (FreeBSD._getDiskUsage (some u) inf).2.object = inf.object)
    ∧ (∀ (u : Statfs) (inf : Filesystem),
      (Darwin._getDiskUsage (some u) inf).2.flagsPrev = inf.flags
      ∧ (Darwin._getDiskUsage (some u) inf).2.flags = u.f_flags
      ∧ (Darwin._getDiskUsage (some u) inf).2.read = inf.read
      ∧ (Darwin._getDiskUsage (some u) inf).2.write = inf.write
      ∧ (Darwin._getDiskUsage (some u) inf).2.object = inf.object)
    ∧ (∀ (u : HpStatfs) (inf : Filesystem),
      (Hpux._getDiskUsage (some u) inf).2.flagsPrev = inf.flagsPrev
      ∧ (Hpux._getDiskUsage (some u) inf).2.flags = inf.flags
      ∧ (Hpux._getDiskUsage (some u) inf).2.f_bsize = u.f_bsize
      ∧ (Hpux._getDiskUsage (some u) inf).2.f_blocks = u.f_blocks
      ∧ (Hpux._getDiskUsage (some u) inf).2.f_blocksfree = u.f_bavail
      ∧ (Hpux._getDiskUsage (some u) inf).2.f_blocksfreetotal = u.f_bfree
      ∧ (Hpux._getDiskUsage (some u) inf).2.f_files = u.f_files
      ∧ (Hpux._getDiskUsage (some u) inf).2.f_filesfree = u.f_ffree
      ∧ (Hpux._getDiskUsage (some u) inf).2.read = inf.read
      ∧ (Hpux._getDiskUsage (some u) inf).2.write = inf.write
      ∧ (Hpux._getDiskUsage (some u) inf).2.object = inf.object) := by
  refine ⟨?_, ?_, ?_, ?_, ?_, ?_⟩ <;>
    intro u inf <;>
    simp [Linux._getDiskUsage, NetBSD._getDiskUsage, Solaris._getDiskUsage,
      FreeBSD._getDiskUsage, Darwin._getDiskUsage, Hpux._getDiskUsage]

/-- Claim C2: with the notification descriptor open, calling the resolver
twice in a row with no mount-table change notification between the calls
yields an identical cached handle (device, key, classification, generation
and all) and the second call performs no re-scan — its result does not
depend on the second call's mount table at all; moreover the handle is
re-resolved exactly when its generation differs from the process-wide
generation counter, and with no descriptor available every call
re-resolves from the current table. -/
theorem linux_resolve_idempotent_rescan_iff :
    (∀ (env1 env2 : Linux.Env) (pollErr1 : Bool) (st : Linux.DState)
        (inf : Filesystem) (path : String) (cmp : String → MntEnt → Bool)
        (l : List MntEnt), st.fdOpen = true → env1.mounts = some l →
      (Linux._getDevice env2 true false true true false
          (Linux._getDevice env1 true false true true pollErr1 st inf path cmp).2.1
          (Linux._getDevice env1 true false true true pollErr1 st inf path cmp).2.2
          path cmp).2.2.object
        = (Linux._getDevice env1 true false true true pollErr1 st inf path cmp).2.2.object
      ∧ (Linux._getDevice env2 true false true true false
          (Linux._getDevice env1 true false true true pollErr1 st inf path cmp).2.1
          (Linux._getDevice env1 true false true true pollErr1 st inf path cmp).2.2
          path cmp).2.1
        = (Linux._getDevice env1 true false true true pollErr1 st inf path cmp).2.1)
    ∧ (∀ (env : Linux.Env) (st : Linux.DState) (inf : Filesystem)
        (path : String) (cmp : String → MntEnt → Bool),
        st.fdOpen = true → inf.object.generation = st.generation →
        (Linux._getDevice env true false true true false st inf path cmp).2.2.object
          = inf.object)
    ∧ (∀ (env : Linux.Env) (st : Linux.DState) (inf : Filesystem)
        (path : String) (cmp : String → MntEnt → Bool),
        st.fdOpen = true → inf.object.generation ≠ st.generation →
        (Linux._getDevice env true false true true false st inf path cmp).2.2.object
          = (Linux._setDevice env st.generation inf path cmp).2.object)
    ∧ (∀ (env : Linux.Env) (st : Linux.DState) (inf : Filesystem)
        (path : String) (cmp : String → MntEnt → Bool),
        st.fdOpen = false →
        (Linux._getDevice env false false false true false st inf path cmp).2.2.object
          = (Linux._setDevice env st.generation inf path cmp).2.object) := by
  refine ⟨?_, ?_, ?_, ?_⟩
  · intro env1 env2 pollErr1 st inf path cmp l hfd hm
    obtain ⟨fd, g⟩ := st
    replace hfd : fd = true := hfd
    subst hfd
    have hst := getDevice_state_eq env1 pollErr1 g inf path cmp
    have hgen := getDevice_gen_sync env1 pollErr1 g inf path cmp l hm
    rw [hst]
    constructor
    · exact getDevice_nochange env2 (if pollErr1 then g + 1 else g) _ path cmp hgen
    · rw [getDevice_state_eq env2 false (if pollErr1 then g + 1 else g) _ path cmp]
      simp
  · intro env st inf path cmp hfd hg
    obtain ⟨fd, g⟩ := st
    replace hfd : fd = true := hfd
    subst hfd
    exact getDevice_nochange env g inf path cmp hg
  · intro env st inf path cmp hfd hg
    obtain ⟨fd, g⟩ := st
    replace hfd : fd = true := hfd
    subst hfd
    exact getDevice_rescan_gen env g inf path cmp hg
  · intro env st inf path cmp hfd
    obtain ⟨fd, g⟩ := st
    replace hfd : fd = false := hfd
    subst hfd
    exact getDevice_nofd env g inf path cmp

/-- Witness for C2: a concrete first resolution of / against a one-entry
table, followed by a second call against a changed (empty) table with no
change notification: the cached handle is returned unchanged. -/
theorem linux_resolve_idempotent_rescan_iff_witness :
    (Linux._getDevice envW2 true false true true false
        (Linux._getDevice envW1 true false true true false
          ⟨true, 3⟩ baseInf "/" Linux._compareMountpoint).2.1
        (Linux._getDevice envW1 true false true true false
          ⟨true, 3⟩ baseInf "/" Linux._compareMountpoint).2.2
        "/" Linux._compareMountpoint).2.2.object
      = (Linux._getDevice envW1 true false true true false
          ⟨true, 3⟩ baseInf "/" Linux._compareMountpoint).2.2.object :=
  (linux_resolve_idempotent_rescan_iff.1 envW1 envW2 false ⟨true, 3⟩ baseInf
    "/" Linux._compareMountpoint [⟨"/dev/sda1", "/", "ext4"⟩] rfl rfl).1

/-- Counterexample to C1: on the Linux backend, a resolution whose target
matches no mount-table entry returns failure and marks the handle
unmounted, but the six activity counters keep their previous (stale)
values instead of being reset. -/
theorem linux_notfound_counters_stale :
    (Linux._setDevice envW2 1 staleInf "/mnt" Linux._compareMountpoint).1 = false
    ∧ (Linux._setDevice envW2 1 staleInf "/mnt"
        Linux._compareMountpoint).2.object.mounted = false
    ∧ (Linux._setDevice envW2 1 staleInf "/mnt"
        Linux._compareMountpoint).2.read.bytes = some (5, 42)
    ∧ ¬ ((Linux._setDevice envW2 1 staleInf "/mnt"
            Linux._compareMountpoint).2.read = IOStat.reset
         ∧ (Linux._setDevice envW2 1 staleInf "/mnt"
            Linux._compareMountpoint).2.write = IOStat.reset) := by
  decide

/-- Claim C1 (amended): on the FreeBSD-style backends a resolution miss
resets all six activity counters (and the per-cycle result is still
reported as success); on the Linux handle-caching backend a resolution
miss returns failure with mounted = false but leaves the activity
counters untouched. -/
theorem resolver_failure_counter_reset_by_platform :
    (∀ (cap : Nat) (l : List FreeBSD.StatfsEnt)
        (query : Option (Rat × List FreeBSD.Devstat)) (now : Nat)
        (mountpoint : String) (st : FreeBSD.FBState) (inf : Filesystem),
      (∀ e ∈ l, (e.f_mntonname == mountpoint) = false) →
      (FreeBSD._getDiskActivity cap (some l) query now mountpoint st inf).1 = true
      ∧ (FreeBSD._getDiskActivity cap (some l) query now mountpoint
          st inf).2.2.read = IOStat.reset
      ∧ (FreeBSD._getDiskActivity cap (some l) query now mountpoint
          st inf).2.2.write = IOStat.reset
      ∧ (FreeBSD._getDevice cap (some l) mountpoint inf).1 = none)
    ∧ (∀ (env : Linux.Env) (gen : Nat) (inf : Filesystem) (path : String)
        (cmp : String → MntEnt → Bool) (l : List MntEnt),
      env.mounts = some l → (∀ m ∈ l, cmp path m = false) →
      (Linux._setDevice env gen inf path cmp).1 = false
      ∧ (Linux._setDevice env gen inf path cmp).2.object.mounted = false
      ∧ (Linux._setDevice env gen inf path cmp).2.read = inf.read
      ∧ (Linux._setDevice env gen inf path cmp).2.write = inf.write) := by
  constructor
  · intro cap l query now mountpoint st inf h
    have hf : l.find? (fun sfs => sfs.f_mntonname == mountpoint) = none :=
      List.find?_eq_none.mpr (fun x hx => by simp [h x hx])
    refine ⟨?_, ?_, ?_, ?_⟩ <;>
      simp [FreeBSD._getDiskActivity, FreeBSD._getDevice, hf]
  · intro env gen inf path cmp l hm h
    have hf : l.find? (fun mnt => cmp path mnt) = none :=
      List.find?_eq_none.mpr (fun x hx => by simp [h x hx])
    refine ⟨?_, ?_, ?_, ?_⟩ <;> simp [Linux._setDevice, hm, hf]

/-- Witness for C1 (amended): a concrete miss on each backend — FreeBSD
resets the counters, Linux leaves the stale ones in place. -/
theorem resolver_failure_counter_reset_by_platform_witness :
    (FreeBSD._getDiskActivity 63 (some [⟨"/dev/da0", "/home", "ufs"⟩]) none 7
      "/" ⟨0, 0, []⟩ staleInf).2.2.read = IOStat.reset
    ∧ (Linux._setDevice envW2 1 staleInf "/mnt"
        Linux._compareMountpoint).2.read = staleInf.read := by
  constructor
  · exact (resolver_failure_counter_reset_by_platform.1 63
      [⟨"/dev/da0", "/home", "ufs"⟩] none 7 "/" ⟨0, 0, []⟩ staleInf
      (by decide)).2.1
  · exact (resolver_failure_counter_reset_by_platform.2 envW2 1 staleInf
      "/mnt" Linux._compareMountpoint [] rfl (by simp)).2.2.1

/-- Counterexample to C3: on the C3 test vector the parser assigns the
fourth numeric field (2048) to bytesSent and the fifth (4096) to
bytesReceived, so the value fed into the read-bytes counter is 4096, not
2048 as the claim states. -/
theorem nfs_read_bytes_not_fourth_field :
    Linux.nfsParseLine "READ: 100 0 0 2048 4096 0 0 5000"
      = some ("READ", 100, 2048, 4096, 5000)
    ∧ (Linux._getNfsDiskActivity envC3 infC3).2.read.bytes ≠ some (7, 2048) := by
  decide

/-- Claim C3 (amended): for the statistics source containing the header
"device foo mounted on /mnt ..." followed by
"READ: 100 0 0 2048 4096 0 0 5000", the NFS parser extracts operations
100, bytesSent 2048 (fourth numeric field), bytesReceived 4096 (fifth
numeric field) and time 5000 microseconds, and feeds into the accumulator
read operations = 100, read bytes = bytesReceived = 4096 and read time =
5.0 ms (5000 / 1000). -/
theorem nfs_parser_extraction :
    (Linux._getNfsDiskActivity envC3 infC3).1 = true
    ∧ (Linux._getNfsDiskActivity envC3 infC3).2.read.operations = some (7, 100)
    ∧ (Linux._getNfsDiskActivity envC3 infC3).2.read.bytes = some (7, 4096)
    ∧ (Linux._getNfsDiskActivity envC3 infC3).2.read.time = some (7, 5)
    ∧ Linux.nfsParseLine "READ: 100 0 0 2048 4096 0 0 5000"
      = some ("READ", 100, 2048, 4096, 5000) := by
  decide

/-- Counterexample to C4: on the Linux backend a matched ext4 entry whose
device fails canonicalization with ENOTDIR is not classified Virtual: the
resolution fails (only ENOENT is tolerated there). -/
theorem linux_enotdir_not_virtual :
    (Linux._setDevice envC4 1 baseInf "/mnt" Linux._compareMountpoint).1 = false
    ∧ (Linux._setDevice envC4 1 baseInf "/mnt"
        Linux._compareMountpoint).2.object.mounted = false := by
  decide

/-- Claim C4 (amended): for a matched non-NFS/CIFS entry, the Linux
resolver treats an ENOENT canonicalization failure as Virtual (no-op
activity collector, resolution succeeds) and any other errno — ENOTDIR
included — as an environmental error (resolution fails); the Solaris
resolver skips the entry on any canonicalization failure (returning
NotFound so the counters get reset) and logs an error exactly when the
errno is neither ENOENT nor ENOTDIR. -/
theorem canonicalization_failure_modes :
    (∀ (env : Linux.Env) (gen : Nat) (inf : Filesystem) (path : String)
        (cmp : String → MntEnt → Bool) (l : List MntEnt) (mnt : MntEnt),
      env.mounts = some l → l.find? (fun m => cmp path m) = some mnt →
      Str_startsWith mnt.mnt_type "nfs" = false →
      (mnt.mnt_type == "cifs") = false →
      env.realpath mnt.mnt_fsname = .error .ENOENT →
      (Linux._setDevice env gen inf path cmp).1 = true
      ∧ (Linux._setDevice env gen inf path cmp).2.object.activity = .dummy
      ∧ (Linux._setDevice env gen inf path cmp).2.object.mounted = true)
    ∧ (∀ (env : Linux.Env) (gen : Nat) (inf : Filesystem) (path : String)
        (cmp : String → MntEnt → Bool) (l : List MntEnt) (mnt : MntEnt)
        (e : Errno),
      env.mounts = some l → l.find? (fun m => cmp path m) = some mnt →
      Str_startsWith mnt.mnt_type "nfs" = false →
      (mnt.mnt_type == "cifs") = false →
      env.realpath mnt.mnt_fsname = .error e → e ≠ .ENOENT →
      (Linux._setDevice env gen inf path cmp).1 = false
      ∧ (Linux._setDevice env gen inf path cmp).2.object.mounted = false)
    ∧ (∀ (mnttab : Option (List Solaris.SolMnt))
        (rp : String → Except Errno String) (pti : Option (List String))
        (mountpoint : String) (dev : Solaris.SolDevice) (inf : Filesystem)
        (l : List Solaris.SolMnt) (m : Solaris.SolMnt) (e : Errno),
      mnttab = some l → l.find? (fun x => x.mnt_mountp == mountpoint) = some m →
      Str_startsWith m.mnt_fstype "nfs" = false →
      (m.mnt_fstype == "zfs") = false →
      rp m.mnt_special = .error e →
      (Solaris._getDevice mnttab rp pti mountpoint dev inf).rv = false
      ∧ ((e = .ENOENT ∨ e = .ENOTDIR) →
          (Solaris._getDevice mnttab rp pti mountpoint dev inf).errLogged = false)
      ∧ (e ≠ .ENOENT → e ≠ .ENOTDIR →
          (Solaris._getDevice mnttab rp pti mountpoint dev inf).errLogged = true)) := by
  refine ⟨?_, ?_, ?_⟩
  · intro env gen inf path cmp l mnt hm hf hnfs hcifs hrp
    refine ⟨?_, ?_, ?_⟩ <;> simp [Linux._setDevice, hm, hf, hnfs, hcifs, hrp]
  · intro env gen inf path cmp l mnt e hm hf hnfs hcifs hrp he
    have hb : (e != Errno.ENOENT) = true := bne_iff_ne.mpr he
    refine ⟨?_, ?_⟩ <;> simp [Linux._setDevice, hm, hf, hnfs, hcifs, hrp, hb]
  · intro mnttab rp pti mountpoint dev inf l m e hm hf hnfs hzfs hrp
    subst hm
    refine ⟨?_, ?_, ?_⟩
    · simp [Solaris._getDevice, hf, hnfs, hzfs, hrp]
    · rintro (rfl | rfl) <;> simp [Solaris._getDevice, hf, hnfs, hzfs, hrp]
    · intro h1 h2
      simp [Solaris._getDevice, hf, hnfs, hzfs, hrp, h1, h2]

/-- Witness for C4 (amended): concrete ENOENT (Virtual, success) and
ENOTDIR (error) runs on Linux, and a silent ENOTDIR skip on Solaris. -/
theorem canonicalization_failure_modes_witness :
    (Linux._setDevice envC4b 1 baseInf "/mnt" Linux._compareMountpoint).1 = true
    ∧ (Linux._setDevice envC4 1 baseInf "/mnt" Linux._compareMountpoint).1 = false
    ∧ (Solaris._getDevice (some [⟨"/swap", "/tmp", "tmpfs", 0⟩])
        (fun _ => .error .ENOTDIR) none "/tmp" Solaris.SolDevice.empty
        baseInf).errLogged = false := by
  refine ⟨?_, ?_, ?_⟩
  · exact (canonicalization_failure_modes.1 envC4b 1 baseInf "/mnt"
      Linux._compareMountpoint [⟨"/dev/foo", "/mnt", "ext4"⟩]
      ⟨"/dev/foo", "/mnt", "ext4"⟩ rfl (by decide) (by decide) (by decide)
      rfl).1
  · exact (canonicalization_failure_modes.2.1 envC4 1 baseInf "/mnt"
      Linux._compareMountpoint [⟨"/dev/foo", "/mnt", "ext4"⟩]
      ⟨"/dev/foo", "/mnt", "ext4"⟩ .ENOTDIR rfl (by decide) (by decide)
      (by decide) rfl (by decide)).1
  · exact ((canonicalization_failure_modes.2.2
      (some [⟨"/swap", "/tmp", "tmpfs", 0⟩]) (fun _ => .error .ENOTDIR) none
      "/tmp" Solaris.SolDevice.empty baseInf [⟨"/swap", "/tmp", "tmpfs", 0⟩]
      ⟨"/swap", "/tmp", "tmpfs", 0⟩ .ENOTDIR rfl (by decide) (by decide)
      (by decide) rfl).2.1 (Or.inr rfl))

/-- Counterexample to C7: a raw read-sector count of 2^55 parsed from the
block statistics pseudo-file yields 2^55 * 512 = 2^64, which wraps to 0 in
the uint64_t multiplication, so the byte value fed into the accumulator is
0, not S * 512. -/
theorem sector_bytes_wrap_at_2pow64 :
    (Linux._getBlockDiskActivity envC7 infC7).2.read.bytes = some (9, 0)
    ∧ (Linux._getBlockDiskActivity envC7 infC7).2.read.bytes
        ≠ some (9, ((36028797018963968 * 512 : Nat) : Rat)) := by
  decide

/-- Claim C7 (amended): for every raw sector count S parsed from the
per-device block statistics pseudo-file, the byte value fed into the
accumulator is (S * 512) mod 2^64 — equal to S * 512 exactly whenever
S * 512 < 2^64, i.e. for every S below 2^55. -/
theorem sector_to_byte_conversion :
    ∀ (env : Linux.Env) (inf : Filesystem) (a b s t c d w x : Nat)
      (rest : List Nat),
      env.blockStat inf.object.key
        = some (a :: b :: s :: t :: c :: d :: w :: x :: rest) →
      (Linux._getBlockDiskActivity env inf).1 = true
      ∧ (Linux._getBlockDiskActivity env inf).2.read.bytes
          = some (env.now, ((s * 512 % U64 : Nat) : Rat))
      ∧ (Linux._getBlockDiskActivity env inf).2.write.bytes
          = some (env.now, ((w * 512 % U64 : Nat) : Rat))
      ∧ (s * 512 < U64 →
          (Linux._getBlockDiskActivity env inf).2.read.bytes
            = some (env.now, ((s * 512 : Nat) : Rat)))
      ∧ (w * 512 < U64 →
          (Linux._getBlockDiskActivity env inf).2.write.bytes
            = some (env.now, ((w * 512 : Nat) : Rat))) := by
  intro env inf a b s t c d w x rest h
  refine ⟨?_, ?_, ?_, ?_, ?_⟩
  · simp [Linux._getBlockDiskActivity, h]
  · simp [Linux._getBlockDiskActivity, h, Statistics_update]
  · simp [Linux._getBlockDiskActivity, h, Statistics_update]
  · intro hs
    simp [Linux._getBlockDiskActivity, h, Statistics_update,
      Nat.mod_eq_of_lt hs]
  · intro hw
    simp [Linux._getBlockDiskActivity, h, Statistics_update,
      Nat.mod_eq_of_lt hw]

/-- Witness for C7 (amended): 10 write sectors become exactly
10 * 512 = 5120 bytes. -/
theorem sector_to_byte_conversion_witness :
    (Linux._getBlockDiskActivity envC7w infC7).2.write.bytes
      = some (9, ((10 * 512 : Nat) : Rat)) := by
  have h := sector_to_byte_conversion envC7w infC7 1 0 8 1 1 0 10 1 [0, 0, 0]
    (by decide)
  exact h.2.2.2.2 (by decide)

/-- A character list with no digit has no first-digit split. -/
theorem firstDigitSplit_none_of_no_digit (l : List Char)
    (h : ∀ c ∈ l, c.isDigit = false) : firstDigitSplit l = none := by
  induction l with
  | nil => rfl
  | cons c cs ih =>
      have hc : c.isDigit = false := h c (List.mem_cons_self c cs)
      rw [firstDigitSplit]
      simp only [hc, Bool.false_eq_true, if_false]
      rw [ih (fun x hx => h x (List.mem_cons_of_mem c hx))]

/-- A failed first-digit split means no character is a digit. -/
theorem no_digit_of_firstDigitSplit_none (l : List Char)
    (h : firstDigitSplit l = none) : ∀ c ∈ l, c.isDigit = false := by
  induction l with
  | nil => intro c hc; cases hc
  | cons c cs ih =>
      rw [firstDigitSplit] at h
      by_cases hc : c.isDigit = true
      · simp [hc] at h
      · simp only [hc, if_false] at h
        intro x hx
        rcases List.mem_cons.mp hx with rfl | hx'
        · exact Bool.of_not_eq_true hc
        · cases hf : firstDigitSplit cs with
          | none => exact ih hf x hx'
          | some pr => rw [hf] at h; cases h

/-- The first-digit split of a digit-free part followed by a digit. -/
theorem firstDigitSplit_append (pre : List Char) (d : Char) (rest : List Char)
    (hpre : ∀ c ∈ pre, c.isDigit = false) (hd : d.isDigit = true) :
    firstDigitSplit (pre ++ d :: rest) = some (pre, d :: rest) := by
  induction pre with
  | nil => simp [firstDigitSplit, hd]
  | cons p ps ih =>
      have hp : p.isDigit = false := hpre p (List.mem_cons_self p ps)
      rw [List.cons_append, firstDigitSplit]
      simp only [hp, Bool.false_eq_true, if_false]
      rw [ih (fun x hx => hpre x (List.mem_cons_of_mem p hx))]

/-- Claim C10: the BSD device-name parsers succeed exactly when the
basename of the device path contains a decimal digit; on success, within
the destination buffer capacity, the FreeBSD variant splits at the first
digit into the letter name plus the numeric instance parsed from there,
and the NetBSD/OpenBSD variant keeps the prefix up to and including the
last digit. -/
theorem bsd_parse_device_digit_split :
    (∀ (cap : Nat) (path : String),
      FreeBSD._parseDevice cap path = none
        ↔ ∀ c ∈ (File_basename path).data, c.isDigit = false)
    ∧ (∀ (cap : Nat) (path : String),
      NetBSD._parseDevice cap path = none
        ↔ ∀ c ∈ (File_basename path).data, c.isDigit = false)
    ∧ (∀ (cap : Nat) (path : String) (pre : List Char) (d : Char)
        (rest : List Char),
      (File_basename path).data = pre ++ d :: rest →
      (∀ c ∈ pre, c.isDigit = false) → d.isDigit = true → pre.length < cap →
      FreeBSD._parseDevice cap path
        = some ⟨String.mk pre, digitsVal ((d :: rest).takeWhile Char.isDigit)⟩)
    ∧ (∀ (cap : Nat) (path : String) (pre : List Char) (d : Char)
        (suf : List Char),
      (File_basename path).data = pre ++ d :: suf →
      d.isDigit = true → (∀ c ∈ suf, c.isDigit = false) →
      pre.length + 1 < cap →
      NetBSD._parseDevice cap path = some (String.mk (pre ++ [d]))) := by
  refine ⟨?_, ?_, ?_, ?_⟩
  · intro cap path
    simp only [FreeBSD._parseDevice]
    constructor
    · intro h
      cases hf : firstDigitSplit (File_basename path).data with
      | none => exact no_digit_of_firstDigitSplit_none _ hf
      | some pr => rw [hf] at h; cases h
    · intro h
      rw [firstDigitSplit_none_of_no_digit _ h]
  · intro cap path
    simp only [NetBSD._parseDevice]
    constructor
    · intro h
      cases hf : firstDigitSplit (File_basename path).data.reverse with
      | none =>
          intro c hc
          exact no_digit_of_firstDigitSplit_none _ hf c
            (List.mem_reverse.mpr hc)
      | some pr => rw [hf] at h; cases h
    · intro h
      rw [firstDigitSplit_none_of_no_digit _
        (fun c hc => h c (List.mem_reverse.mp hc))]
  · intro cap path pre d rest hbase hpre hd hcap
    simp only [FreeBSD._parseDevice]
    rw [hbase, firstDigitSplit_append pre d rest hpre hd]
    simp only [Option.some.injEq]
    have ht : (pre ++ d :: rest).take (if pre.length < cap then pre.length
        else cap - 1) = pre := by
      rw [if_pos hcap, List.take_left]
    rw [ht]
  · intro cap path pre d suf hbase hd hsuf hcap
    simp only [NetBSD._parseDevice]
    rw [hbase]
    have hrev : (pre ++ d :: suf).reverse = suf.reverse ++ d :: pre.reverse := by
      simp
    have hfds : firstDigitSplit (pre ++ d :: suf).reverse
        = some (suf.reverse, d :: pre.reverse) := by
      rw [hrev]
      exact firstDigitSplit_append _ d _
        (fun c hc => hsuf c (List.mem_reverse.mp hc)) hd
    rw [hfds]
    simp only [Option.some.injEq]
    have hlen : (pre ++ d :: suf).length - 1 - suf.reverse.length
        = pre.length := by
      simp [List.length_append]
    rw [hlen, if_pos hcap]
    have : pre ++ d :: suf = (pre ++ [d]) ++ suf := by simp
    rw [this]
    have hl : pre.length + 1 = (pre ++ [d]).length := by simp
    rw [hl, List.take_left]

/-- Witness for C10: concrete parses — /dev/da0p2 splits into da with
unit 0 on FreeBSD, /dev/sd0a keeps sd0 on NetBSD, and a digit-free
basename fails on both. -/
theorem bsd_parse_device_digit_split_witness :
    FreeBSD._parseDevice 63 "/dev/da0p2" = some ⟨"da", 0⟩
    ∧ NetBSD._parseDevice 19 "/dev/sd0a" = some "sd0"
    ∧ FreeBSD._parseDevice 63 "/dev/gpt/root" = none := by
  refine ⟨?_, ?_, ?_⟩
  · have h := bsd_parse_device_digit_split.2.2.1 63 "/dev/da0p2"
      ['d', 'a'] '0' ['p', '2'] (by decide) (by decide) (by decide) (by decide)
    rw [h]
    decide
  · have h := bsd_parse_device_digit_split.2.2.2 19 "/dev/sd0a"
      ['s', 'd'] '0' ['a'] (by decide) (by decide) (by decide) (by decide)
    rw [h]
    decide
  · exact (bsd_parse_device_digit_split.1 63 "/dev/gpt/root").mpr (by decide)

